import Mathlib

/-!
Shallow embedding of the RegisterScreen component
(src/app/register/page.tsx and the client component it renders).

The component holds five pieces of state (status, loadingStatus,
submitting, error, formData), a derived boolean canRegisterInitialAdmin,
a mount effect loadStatus fetching GET /api/setup/status, and a submit
handler onSubmit posting to /api/auth/register.  Fetches are modelled as
values of an Except type: a thrown exception carries an optional message
(the message of an Error instance, none for a non-Error throw); a
resolved HTTP response carries its numeric status code and the result of
parsing its body as JSON.  JavaScript truthiness on the optional boolean
fields of SetupStatus is Option.getD false; the JavaScript expression
x || y on strings falls back to y when x is absent or empty.
-/

/-- The SetupStatus record received from GET /api/setup/status.
dbConfigured and connectionValid are optional in the TypeScript type. -/
structure SetupStatus where
  isInitialized : Bool
  tablesCreated : Bool
  adminExists : Bool
  setupStep : String
  dbConfigured : Option Bool
  connectionValid : Option Bool
  error : Option String
deriving Repr, DecidableEq

/-- The controlled form fields fullName, email, password. -/
structure RegistrationForm where
  fullName : String
  email : String
  password : String
deriving Repr, DecidableEq

/-- The five useState cells of the component. -/
structure ScreenState where
  status : Option SetupStatus
  loadingStatus : Bool
  submitting : Bool
  error : Option String
  formData : RegistrationForm
deriving Repr, DecidableEq

/-- A toast notification fired through the sonner library. -/
inductive Toast where
  | success (msg : String)
  | error (msg : String)
deriving Repr, DecidableEq

/-- What the component renders after the loading branch is decided. -/
inductive RenderView where
  | loading
  | cannotRegister
  | form
deriving Repr, DecidableEq

/-- A resolved response of the status fetch: the HTTP status code and
the outcome of response.json, which either throws (with an optional
Error message) or yields a parsed SetupStatus. -/
structure StatusResponse where
  httpStatus : Nat
  jsonResult : Except (Option String) SetupStatus
deriving Repr

/-- A resolved response of the registration POST: the HTTP status code
and the outcome of response.json, which either throws on parsing or
yields a body whose error field is an optional string. -/
structure RegResponse where
  httpStatus : Nat
  jsonBody : Except Unit (Option String)
deriving Repr

/-- The observable effects of one run of the submit handler. -/
structure SubmitEffects where
  toasts : List Toast
  navigate : Option String
  posted : Bool
deriving Repr, DecidableEq

def setupPath : String := "/setup"

def loginPath : String := "/login"

def adminPath : String := "/admin"

def notAvailableMsg : String := "Registration is not available right now"

def shortPasswordMsg : String := "Password must be at least 8 characters"

def successMsg : String := "Admin account created"

def createFailedMsg : String := "Failed to create account"

def registrationFailedMsg : String := "Registration failed"

def statusFailedMsg : String := "Failed to check setup status"

/-- Response.ok of the fetch API: true exactly for 2xx status codes. -/
def respOk (n : Nat) : Bool := 200 ≤ n && n < 300

/-- The derived value canRegisterInitialAdmin (source lines 36 to 39):
false when status is null, otherwise the double-negation truthiness of
dbConfigured, connectionValid and tablesCreated conjoined with the
negation of adminExists. -/
def canRegisterInitialAdmin (status : Option SetupStatus) : Bool :=
  match status with
  | none => false
  | some st =>
      st.dbConfigured.getD false && st.connectionValid.getD false &&
        st.tablesCreated && !st.adminExists

/-- What the awaited expression response.json inside loadStatus
evaluates to: a thrown fetch error propagates, otherwise the parse
outcome of the response body.  The HTTP status code of the response is
never consulted. -/
def resolveStatusFetch (f : Except (Option String) StatusResponse) :
    Except (Option String) SetupStatus :=
  match f with
  | Except.error e => Except.error e
  | Except.ok r => r.jsonResult

/-- The mount effect body loadStatus (source lines 44 to 74).  It first
sets loadingStatus true and clears error (before the await), then awaits
the fetch-and-parse.  The cancelled flag is the closure variable set by
the effect cleanup; it is checked only after the await resolves (lines
52, 69, 72), so when it is set no further state update and no redirect
happens.  The second component is the router.replace target. -/
def loadStatus (s : ScreenState) (cancelled : Bool)
    (f : Except (Option String) StatusResponse) :
    ScreenState × Option String :=
  let s0 : ScreenState := { s with loadingStatus := true, error := none }
  match resolveStatusFetch f with
  | Except.ok data =>
      if cancelled then (s0, none)
      else
        let s1 : ScreenState := { s0 with status := some data, loadingStatus := false }
        let redirect : Option String :=
          if !(data.dbConfigured.getD false) || !(data.connectionValid.getD false) then
            none
          else if !data.tablesCreated then
            some setupPath
          else if data.adminExists then
            some loginPath
          else
            none
        (s1, redirect)
  | Except.error ex =>
      if cancelled then (s0, none)
      else
        ({ s0 with error := some (ex.getD statusFailedMsg), loadingStatus := false }, none)

/-- The submit handler onSubmit (source lines 82 to 127).  The two local
guards return before any state change or network call.  Otherwise
submitting is set and error cleared, the POST is issued, and the finally
block resets submitting on every path, including the 2xx path that
returns after router.push. -/
def onSubmit (s : ScreenState) (resp : Except (Option String) RegResponse) :
    ScreenState × SubmitEffects :=
  if !canRegisterInitialAdmin s.status then
    (s, ⟨[Toast.error notAvailableMsg], none, false⟩)
  else if s.formData.password.length < 8 then
    (s, ⟨[Toast.error shortPasswordMsg], none, false⟩)
  else
    let s0 : ScreenState := { s with submitting := true, error := none }
    match resp with
    | Except.ok r =>
        if respOk r.httpStatus then
          ({ s0 with submitting := false },
           ⟨[Toast.success successMsg], some adminPath, true⟩)
        else
          let data : Option String :=
            match r.jsonBody with
            | Except.error _ => none
            | Except.ok v => v
          let message : String :=
            match data with
            | some m => if m = "" then createFailedMsg else m
            | none => createFailedMsg
          ({ s0 with error := some message, submitting := false },
           ⟨[Toast.error message], none, true⟩)
    | Except.error ex =>
        let message : String := ex.getD registrationFailedMsg
        ({ s0 with error := some message, submitting := false },
         ⟨[Toast.error message], none, true⟩)

/-- The render branch structure (source lines 129 to 237): the loading
card while loadingStatus, the cannot-register card when a stored status
has a falsy dbConfigured or connectionValid, the form otherwise. -/
def render (s : ScreenState) : RenderView :=
  if s.loadingStatus then RenderView.loading
  else
    match s.status with
    | some st =>
        if !(st.dbConfigured.getD false) || !(st.connectionValid.getD false) then
          RenderView.cannotRegister
        else RenderView.form
    | none => RenderView.form

/-- The disabled attribute shared by all three inputs and the submit
button (source lines 196, 208, 220, 225). -/
def formDisabled (s : ScreenState) : Bool :=
  s.submitting || !canRegisterInitialAdmin s.status

/-- The inline alert content (source lines 182 to 186): the stored error
string when present. -/
def inlineAlert (s : ScreenState) : Option String :=
  s.error

/-- The initial component state: status null, loadingStatus true,
submitting false, error null, empty form fields. -/
def initialState : ScreenState :=
  { status := none, loadingStatus := true, submitting := false, error := none,
    formData := { fullName := "", email := "", password := "" } }

/-- A fully ready SetupStatus: database configured and connected,
tables created, no admin yet. -/
def readyStatus : SetupStatus :=
  { isInitialized := true, tablesCreated := true, adminExists := false,
    setupStep := "complete", dbConfigured := some true,
    connectionValid := some true, error := none }

/-- A state in which registration is permitted and the password is long
enough. -/
def readyState : ScreenState :=
  { status := some readyStatus, loadingStatus := false, submitting := false,
    error := none,
    formData := { fullName := "Ada Lovelace", email := "ada@example.com",
                  password := "longenough" } }

/-- Like readyState but with a seven-character password. -/
def shortPwState : ScreenState :=
  { readyState with
    formData := { fullName := "Ada Lovelace", email := "ada@example.com",
                  password := "short77" } }

lemma getD_false_eq_true (o : Option Bool) : (o.getD false = true) ↔ o = some true := by
  cases o <;> simp

/-- C1: canRegisterInitialAdmin over a present status is true exactly
when dbConfigured and connectionValid are present and true, tablesCreated
is true, and adminExists is false; an absent optional field makes it
false because truthiness of an absent field is false. -/
theorem c1_canRegister_iff (st : SetupStatus) :
    canRegisterInitialAdmin (some st) = true ↔
      (st.dbConfigured = some true ∧ st.connectionValid = some true ∧
       st.tablesCreated = true ∧ st.adminExists = false) := by
  simp [canRegisterInitialAdmin, Bool.and_eq_true, getD_false_eq_true,
        Bool.not_eq_true', and_assoc]

/-- C3: when the status fetch resolves and parses to a status with a
falsy dbConfigured or a falsy connectionValid, the loader stores the
status, issues no redirect, and the component then renders the
cannot-register branch, whatever the other fields hold. -/
theorem c3_not_ready_blocks (s : ScreenState) (r : StatusResponse) (d : SetupStatus)
    (hj : r.jsonResult = Except.ok d)
    (h : d.dbConfigured.getD false = false ∨ d.connectionValid.getD false = false) :
    (loadStatus s false (Except.ok r)).2 = none ∧
    render (loadStatus s false (Except.ok r)).1 = RenderView.cannotRegister := by
  have hr : resolveStatusFetch (Except.ok r) = Except.ok d := hj
  rcases h with h | h <;> simp [loadStatus, hr, render, h]

/-- A SetupStatus whose database is not configured. -/
def dbNotReadyStatus : SetupStatus :=
  { isInitialized := false, tablesCreated := false, adminExists := false,
    setupStep := "db", dbConfigured := some false, connectionValid := none,
    error := none }

/-- A SetupStatus with the database ready but tables not created. -/
def tablesMissingStatus : SetupStatus :=
  { isInitialized := false, tablesCreated := false, adminExists := false,
    setupStep := "tables", dbConfigured := some true,
    connectionValid := some true, error := none }

/-- C3 witness: a concrete response with dbConfigured false. -/
theorem c3_witness :
    (loadStatus initialState false
        (Except.ok ⟨200, Except.ok dbNotReadyStatus⟩)).2 = none ∧
    render (loadStatus initialState false
        (Except.ok ⟨200, Except.ok dbNotReadyStatus⟩)).1 = RenderView.cannotRegister :=
  c3_not_ready_blocks initialState _ _ rfl (Or.inl (by decide))

/-- C4: when the parsed status has dbConfigured and connectionValid both
true, the loader redirects to /setup if tablesCreated is false, else to
/login if adminExists is true, and else issues no redirect and the
component renders the registration form. -/
theorem c4_ready_redirects (s : ScreenState) (r : StatusResponse) (d : SetupStatus)
    (hj : r.jsonResult = Except.ok d)
    (h1 : d.dbConfigured = some true) (h2 : d.connectionValid = some true) :
    (d.tablesCreated = false →
      (loadStatus s false (Except.ok r)).2 = some setupPath) ∧
    (d.tablesCreated = true → d.adminExists = true →
      (loadStatus s false (Except.ok r)).2 = some loginPath) ∧
    (d.tablesCreated = true → d.adminExists = false →
      (loadStatus s false (Except.ok r)).2 = none ∧
      render (loadStatus s false (Except.ok r)).1 = RenderView.form) := by
  have hr : resolveStatusFetch (Except.ok r) = Except.ok d := hj
  refine ⟨fun ht => ?_, fun ht ha => ?_, fun ht ha => ?_⟩
  · simp [loadStatus, hr, render, h1, h2, ht]
  · simp [loadStatus, hr, render, h1, h2, ht, ha]
  · simp [loadStatus, hr, render, h1, h2, ht, ha]

/-- C4 witness: a concrete status with tables not yet created redirects
to /setup. -/
theorem c4_witness :
    (loadStatus initialState false
        (Except.ok ⟨200, Except.ok tablesMissingStatus⟩)).2 = some setupPath :=
  (c4_ready_redirects initialState _ _ rfl rfl rfl).1 rfl

/-- C9: when the cancelled flag is set by the cleanup before the fetch
resolves, the loader performs no state update after the resolution and
no redirect: the resulting state is exactly the state left by the
synchronous prelude of the effect (loadingStatus set, error cleared,
both of which happened before the fetch resolved), whatever the fetch
outcome, and the function is total so nothing throws. -/
theorem c9_cancelled_no_updates (s : ScreenState)
    (f : Except (Option String) StatusResponse) :
    loadStatus s true f = ({ s with loadingStatus := true, error := none }, none) := by
  unfold loadStatus
  cases resolveStatusFetch f <;> simp

def emptyString : String := ""

def emailTakenMsg : String := "Email taken"

/-- Helper: when canRegisterInitialAdmin is false, the submit handler
fires the not-available toast, does not navigate, issues no POST and
leaves the state untouched. -/
lemma onSubmit_not_allowed (s : ScreenState) (resp : Except (Option String) RegResponse)
    (h : canRegisterInitialAdmin s.status = false) :
    onSubmit s resp = (s, ⟨[Toast.error notAvailableMsg], none, false⟩) := by
  simp [onSubmit, h]

/-- C7: when the status fetch or its JSON parsing throws, the loader
stores a user-visible error string, issues no redirect, leaves status
null (starting from a state with no loaded status), so registration
stays impossible and a submit issues no POST. -/
theorem c7_status_failure_blocks (s : ScreenState)
    (f : Except (Option String) StatusResponse) (ex : Option String)
    (hs : s.status = none) (hf : resolveStatusFetch f = Except.error ex) :
    (loadStatus s false f).1.error = some (ex.getD statusFailedMsg) ∧
    (loadStatus s false f).2 = none ∧
    (loadStatus s false f).1.status = none ∧
    canRegisterInitialAdmin (loadStatus s false f).1.status = false ∧
    ∀ resp, (onSubmit (loadStatus s false f).1 resp).2.posted = false := by
  have hst : (loadStatus s false f).1.status = none := by simp [loadStatus, hf, hs]
  have hcr : canRegisterInitialAdmin (loadStatus s false f).1.status = false := by
    rw [hst]
    rfl
  refine ⟨by simp [loadStatus, hf], by simp [loadStatus, hf], hst, hcr, fun resp => ?_⟩
  rw [onSubmit_not_allowed _ resp hcr]

/-- C7 witness: a thrown non-Error value yields the generic status
failure message, no redirect, and a blocked submission. -/
theorem c7_witness :
    (loadStatus initialState false (Except.error none)).1.error =
      some (Option.getD none statusFailedMsg) ∧
    (loadStatus initialState false (Except.error none)).2 = none ∧
    (onSubmit (loadStatus initialState false (Except.error none)).1
        (Except.error none)).2.posted = false :=
  ⟨(c7_status_failure_blocks initialState (Except.error none) none rfl rfl).1,
   (c7_status_failure_blocks initialState (Except.error none) none rfl rfl).2.1,
   (c7_status_failure_blocks initialState (Except.error none) none rfl rfl).2.2.2.2 (Except.error none)⟩

/-- C8: the loader never inspects the HTTP status code of the status
response: two resolved responses with the same json outcome produce
identical results, and a response whose body parses is processed as a
normal SetupStatus (stored, with no error recorded) no matter its code;
only a thrown fetch or parse is a failure. -/
theorem c8_http_code_ignored (s : ScreenState) (c : Bool) (r r2 : StatusResponse)
    (h : r.jsonResult = r2.jsonResult) :
    loadStatus s c (Except.ok r) = loadStatus s c (Except.ok r2) ∧
    (∀ d : SetupStatus, r.jsonResult = Except.ok d →
      resolveStatusFetch (Except.ok r) = Except.ok d ∧
      (c = false → (loadStatus s c (Except.ok r)).1.status = some d ∧
        (loadStatus s c (Except.ok r)).1.error = none)) := by
  constructor
  · simp [loadStatus, resolveStatusFetch, h]
  · intro d hd
    have hr : resolveStatusFetch (Except.ok r) = Except.ok d := hd
    refine ⟨hr, fun hc => ?_⟩
    subst hc
    constructor <;> simp [loadStatus, hr]

/-- C8 witness: a 500 response with a parseable body is handled exactly
like a 200 response with the same body, and its status is stored. -/
theorem c8_witness :
    loadStatus initialState false (Except.ok ⟨500, Except.ok tablesMissingStatus⟩) =
      loadStatus initialState false (Except.ok ⟨200, Except.ok tablesMissingStatus⟩) ∧
    (loadStatus initialState false
        (Except.ok ⟨500, Except.ok tablesMissingStatus⟩)).1.status =
      some tablesMissingStatus :=
  ⟨(c8_http_code_ignored initialState false _ _ rfl).1,
   (((c8_http_code_ignored initialState false ⟨500, Except.ok tablesMissingStatus⟩
       ⟨200, Except.ok tablesMissingStatus⟩ rfl).2 tablesMissingStatus rfl).2 rfl).1⟩

/-- C5: with registration permitted but a password shorter than eight
characters, the submit handler fires only the short-password toast,
issues no POST, does not navigate, and changes no state. -/
theorem c5_short_password_no_post (s : ScreenState)
    (resp : Except (Option String) RegResponse)
    (h1 : canRegisterInitialAdmin s.status = true)
    (h2 : s.formData.password.length < 8) :
    onSubmit s resp = (s, ⟨[Toast.error shortPasswordMsg], none, false⟩) := by
  simp [onSubmit, h1, h2]

/-- C5 witness: a seven-character password is rejected locally. -/
theorem c5_witness :
    onSubmit shortPwState (Except.ok ⟨200, Except.ok none⟩) =
      (shortPwState, ⟨[Toast.error shortPasswordMsg], none, false⟩) :=
  c5_short_password_no_post shortPwState (Except.ok ⟨200, Except.ok none⟩)
    (by decide) (by decide)

/-- C10: whenever the stored status is null, canRegisterInitialAdmin is
false, the shared disabled attribute of every input and of the submit
button is true, and any submit aborts with the not-available toast,
issuing no POST and changing no state. -/
theorem c10_null_status_locked (s : ScreenState) (hs : s.status = none) :
    canRegisterInitialAdmin s.status = false ∧
    formDisabled s = true ∧
    ∀ resp, onSubmit s resp = (s, ⟨[Toast.error notAvailableMsg], none, false⟩) := by
  have hcr : canRegisterInitialAdmin s.status = false := by
    rw [hs]
    rfl
  exact ⟨hcr, by simp [formDisabled, hcr], fun resp => onSubmit_not_allowed s resp hcr⟩

/-- C10 witness: the initial state has a null status and blocks
submission. -/
theorem c10_witness :
    canRegisterInitialAdmin initialState.status = false ∧
    formDisabled initialState = true ∧
    onSubmit initialState (Except.ok ⟨200, Except.ok none⟩) =
      (initialState, ⟨[Toast.error notAvailableMsg], none, false⟩) :=
  ⟨(c10_null_status_locked initialState rfl).1,
   (c10_null_status_locked initialState rfl).2.1,
   (c10_null_status_locked initialState rfl).2.2 (Except.ok ⟨200, Except.ok none⟩)⟩

/-- C2 counterexample: on a 2xx registration response the success toast
fires and navigation to /admin occurs, but the finally block of the
handler still resets the submitting flag to false before the function
returns, contrary to the claim that the submitting state is not reset. -/
theorem c2_counterexample :
    (onSubmit readyState (Except.ok ⟨201, Except.ok none⟩)).2.navigate = some adminPath ∧
    (onSubmit readyState (Except.ok ⟨201, Except.ok none⟩)).2.toasts =
      [Toast.success successMsg] ∧
    (onSubmit readyState (Except.ok ⟨201, Except.ok none⟩)).1.submitting = false :=
  ⟨rfl, rfl, rfl⟩

/-- C2 amended: on a 2xx registration response the success toast fires,
navigation to /admin occurs, the POST was issued, and the finally block
resets the submitting flag to false before the handler returns. -/
theorem c2_success_navigates (s : ScreenState) (r : RegResponse)
    (h1 : canRegisterInitialAdmin s.status = true)
    (h2 : 8 ≤ s.formData.password.length)
    (h3 : respOk r.httpStatus = true) :
    (onSubmit s (Except.ok r)).2.toasts = [Toast.success successMsg] ∧
    (onSubmit s (Except.ok r)).2.navigate = some adminPath ∧
    (onSubmit s (Except.ok r)).2.posted = true ∧
    (onSubmit s (Except.ok r)).1.submitting = false := by
  have h2x : ¬ s.formData.password.length < 8 := by omega
  refine ⟨?_, ?_, ?_, ?_⟩ <;> simp [onSubmit, h1, h2x, h3]

/-- C2 witness: a concrete eligible state and a 201 response. -/
theorem c2_witness :
    (onSubmit readyState (Except.ok ⟨201, Except.ok none⟩)).2.toasts =
      [Toast.success successMsg] ∧
    (onSubmit readyState (Except.ok ⟨201, Except.ok none⟩)).2.navigate = some adminPath ∧
    (onSubmit readyState (Except.ok ⟨201, Except.ok none⟩)).2.posted = true ∧
    (onSubmit readyState (Except.ok ⟨201, Except.ok none⟩)).1.submitting = false :=
  c2_success_navigates readyState ⟨201, Except.ok none⟩ (by decide) (by decide) (by decide)

/-- C6 counterexample: a 400 response whose body does contain an error
field holding the empty string is displayed as the generic default
message, not as that (empty) error string, because the JavaScript
fallback treats the empty string as falsy. -/
theorem c6_counterexample :
    inlineAlert (onSubmit readyState
        (Except.ok ⟨400, Except.ok (some emptyString)⟩)).1 = some createFailedMsg ∧
    some createFailedMsg ≠ some emptyString := by
  exact ⟨rfl, by decide⟩

/-- C6 amended: on a non-2xx registration response whose body parses to
a nonempty error string, the inline alert shows exactly that string and
submitting returns to false; when the body fails to parse or has no
error field, the generic default message is shown instead, again with
submitting reset. -/
theorem c6_error_displayed (s : ScreenState) (r : RegResponse) (m : String)
    (h1 : canRegisterInitialAdmin s.status = true)
    (h2 : 8 ≤ s.formData.password.length)
    (h3 : respOk r.httpStatus = false) :
    (r.jsonBody = Except.ok (some m) → m ≠ emptyString →
      inlineAlert (onSubmit s (Except.ok r)).1 = some m ∧
      (onSubmit s (Except.ok r)).2.toasts = [Toast.error m] ∧
      (onSubmit s (Except.ok r)).1.submitting = false) ∧
    ((r.jsonBody = Except.error () ∨ r.jsonBody = Except.ok none) →
      inlineAlert (onSubmit s (Except.ok r)).1 = some createFailedMsg ∧
      (onSubmit s (Except.ok r)).1.submitting = false) := by
  have h2x : ¬ s.formData.password.length < 8 := by omega
  constructor
  · intro hb hm
    have hmx : ¬ (m = "") := by simpa [emptyString] using hm
    refine ⟨?_, ?_, ?_⟩ <;> simp [onSubmit, inlineAlert, h1, h2x, h3, hb, hmx]
  · intro hb
    rcases hb with hb | hb <;> refine ⟨?_, ?_⟩ <;>
      simp [onSubmit, inlineAlert, h1, h2x, h3, hb]

/-- C6 witness: a 400 response with a nonempty error field is shown
verbatim and the submitting flag is reset. -/
theorem c6_witness :
    inlineAlert (onSubmit readyState
        (Except.ok ⟨400, Except.ok (some emailTakenMsg)⟩)).1 = some emailTakenMsg ∧
    (onSubmit readyState
        (Except.ok ⟨400, Except.ok (some emailTakenMsg)⟩)).2.toasts =
      [Toast.error emailTakenMsg] ∧
    (onSubmit readyState
        (Except.ok ⟨400, Except.ok (some emailTakenMsg)⟩)).1.submitting = false :=
  (c6_error_displayed readyState ⟨400, Except.ok (some emailTakenMsg)⟩ emailTakenMsg
    (by decide) (by decide) (by decide)).1 rfl (by decide)
